import Mathlib

/-!
# Verification of the DAEMON fluid-engine simulation core

Shallow embedding of `src/fluid-engine.js` (class `DaemonFluidEngine`):
the grid shaders (divergence, pressure Jacobi relaxation, gradient
subtraction, advection, particle update), the quality controller in
`_animate`, and the configuration surface (`setQuality`,
`updateSettings`, the constructor defaults and `_initFramebuffers`).

Shader arithmetic is modelled over `ℚ` (exact arithmetic standing for the
GPU's real-number semantics).  A grid is `W × H` cells indexed by
integers `0 ≤ i < W`, `0 ≤ j < H`; a texel fetch at the texture
coordinate `((i+0.5)/W, (j+0.5)/H)` with `NEAREST` filtering reads cell
`(i, j)`.  Fields are total functions `ℤ → ℤ → ℚ` (scalar) or
`ℤ → ℤ → ℚ × ℚ` (two-component); every shader read goes through the
reflection helpers, so on grid cells only grid cells are ever consulted.
-/

namespace FluidEngine

/-- Scalar grid field (pressure, divergence, one dye/advection channel). -/
abbrev SField := ℤ → ℤ → ℚ

/-- Two-component grid field (velocity). -/
abbrev VField := ℤ → ℤ → ℚ × ℚ

/-- `settings.cellSize` (fluid-engine.js line 59): fixed at 32. -/
def cellSize : ℚ := 32

/-- `u_halfRdx = 0.5 / this.settings.cellSize` (lines 966, 1020). -/
def halfRdx : ℚ := (1 / 2) / cellSize

/-- `u_alpha = -cellSize * cellSize` (line 984). -/
def jacobiAlpha : ℚ := -(cellSize * cellSize)

/-- One-step edge reflection used by every boundary-corrected sample
(`if (coord.x < 0.0) offset.x = 1.0; else if (coord.x > 1.0) offset.x = -1.0;`):
a read one texel outside the domain is moved one texel back inside. -/
def reflectIdx (n : ℕ) (i : ℤ) : ℤ :=
  if i < 0 then i + 1 else if (n : ℤ) ≤ i then i - 1 else i

/-- `sampleVel` from `_getDivergenceSource` (lines 233-241): edge
reflection with a sign flip of the component normal to the crossed edge
(`mult.x = -1.0` / `mult.y = -1.0`). -/
def sampleVel (W H : ℕ) (v : VField) (i j : ℤ) : ℚ × ℚ :=
  let mx : ℚ := if i < 0 ∨ (W : ℤ) ≤ i then -1 else 1
  let my : ℚ := if j < 0 ∨ (H : ℤ) ≤ j then -1 else 1
  let p := v (reflectIdx W i) (reflectIdx H j)
  (mx * p.1, my * p.2)

/-- `sampleP` from `_getPressureSource` / `_getGradientSource`
(lines 269-276, 305-312): edge reflection with no sign flip. -/
def sampleP (W H : ℕ) (p : SField) (i j : ℤ) : ℚ :=
  p (reflectIdx W i) (reflectIdx H j)

/-- The divergence shader `main` (lines 243-249):
`u_halfRdx * ((R.x - L.x) + (T.y - B.y))` with flip-reflected samples. -/
def divergence (W H : ℕ) (v : VField) : SField := fun i j =>
  let L := sampleVel W H v (i - 1) j
  let R := sampleVel W H v (i + 1) j
  let B := sampleVel W H v i (j - 1)
  let T := sampleVel W H v i (j + 1)
  halfRdx * ((R.1 - L.1) + (T.2 - B.2))

/-- One pressure-relaxation pass, the body of `_getPressureSource`
(lines 278-285): `p' = (L + R + B + T + u_alpha * div) * 0.25`. -/
def pressureIterate (W H : ℕ) (d : SField) (p : SField) : SField := fun i j =>
  (sampleP W H p (i - 1) j + sampleP W H p (i + 1) j +
   sampleP W H p i (j - 1) + sampleP W H p i (j + 1) +
   jacobiAlpha * d i j) * (1 / 4)

/-- The gradient-subtraction shader `main` (lines 314-321):
`vel - u_halfRdx * vec2(R - L, T - B)` with no-flip reflected pressure. -/
def subtractGradient (W H : ℕ) (p : SField) (v : VField) : VField := fun i j =>
  let L := sampleP W H p (i - 1) j
  let R := sampleP W H p (i + 1) j
  let B := sampleP W H p i (j - 1)
  let T := sampleP W H p i (j + 1)
  let vel := v i j
  (vel.1 - halfRdx * (R - L), vel.2 - halfRdx * (T - B))

/-- The all-zero scalar field (a freshly created float texture: `gl.texImage2D`
with `null` data, so the first frame's pressure seed is zero). -/
def zeroField : SField := fun _ _ => 0

/-- The pressure DoubleBuffer: `this.pressureFBO` (an ordered pair of
fields) plus `this.pressIdx` (`false` models index 0). -/
structure PressureBuffers where
  slot0 : SField
  slot1 : SField
  pressIdx : Bool

/-- The buffer currently read: `this.pressureFBO[this.pressIdx]`. -/
def PressureBuffers.read (s : PressureBuffers) : SField :=
  if s.pressIdx then s.slot1 else s.slot0

/-- One loop iteration's buffer discipline in `_solvePressure`
(lines 991-1000): render into `pressureFBO[1 - pressIdx]` and then
`this.pressIdx = writeIdx`. -/
def PressureBuffers.writeAndFlip (s : PressureBuffers) (f : SField) : PressureBuffers :=
  if s.pressIdx then ⟨f, s.slot1, false⟩ else ⟨s.slot0, f, true⟩

/-- `_solvePressure` (lines 975-1002): `u_alpha` and the divergence
texture are bound once; then `for (let i = 0; i < N; i++)` renders the
pressure shader reading `pressureFBO[pressIdx]` into the opposite slot
and flips the index.  There is no early exit or convergence check, and
the buffers are never cleared (warm start from whatever they hold). -/
def solvePressure (W H : ℕ) (d : SField) (N : ℕ) (s : PressureBuffers) :
    PressureBuffers :=
  match N with
  | 0 => s
  | n + 1 => solvePressure W H d n (s.writeAndFlip (pressureIterate W H d s.read))

/-- Stated from the specification text (§4.5), independently of the
shader embedding: one Jacobi iteration computes, for every cell,
`p' = (pL + pR + pB + pT + alpha * div) * 0.25` with
`alpha = -cellSize²`, the four neighbour samples using the same edge
reflection as divergence but with no sign flip. -/
def specJacobiIteration (W H : ℕ) (d p : SField) : SField := fun i j =>
  let pL := p (reflectIdx W (i - 1)) (reflectIdx H j)
  let pR := p (reflectIdx W (i + 1)) (reflectIdx H j)
  let pB := p (reflectIdx W i) (reflectIdx H (j - 1))
  let pT := p (reflectIdx W i) (reflectIdx H (j + 1))
  (pL + pR + pB + pT + -(cellSize * cellSize) * d i j) * (1 / 4)

/-- The frame's projection sequence (`_step`, lines 885-887):
compute divergence, run `N` Jacobi iterations from the seed pressure
`p0`, subtract the pressure gradient from the velocity. -/
def projectVelocity (W H : ℕ) (v : VField) (p0 : SField) (N : ℕ) : VField :=
  subtractGradient W H ((pressureIterate W H (divergence W H v))^[N] p0) v

/-- Largest absolute value a scalar field attains on the `W × H` grid
(the magnitude of a divergence field). -/
def gridMaxAbs (W H : ℕ) (g : SField) : ℚ :=
  (Finset.range W ×ˢ Finset.range H).fold max 0
    (fun c => |g (c.1 : ℤ) (c.2 : ℤ)|)

/-- Texel fetch with `NEAREST` filtering and `CLAMP_TO_EDGE` wrapping
(`_createRenderTarget`, lines 763-766): the texel index is the floor of
the coordinate scaled by the texture size, clamped into the texture. -/
def sampleNearest (W H : ℕ) (f : SField) (c : ℚ × ℚ) : ℚ :=
  f (max 0 (min ((W : ℤ) - 1) ⌊c.1 * W⌋)) (max 0 (min ((H : ℤ) - 1) ⌊c.2 * H⌋))

/-- `sampleNearest` for a two-component texture. -/
def sampleNearestV (W H : ℕ) (f : VField) (c : ℚ × ℚ) : ℚ × ℚ :=
  f (max 0 (min ((W : ℤ) - 1) ⌊c.1 * W⌋)) (max 0 (min ((H : ℤ) - 1) ⌊c.2 * H⌋))

/-- Texture coordinate of the fragment for cell `(i, j)`. -/
def texCoordOf (W H : ℕ) (i j : ℤ) : ℚ × ℚ :=
  (((i : ℚ) + 1 / 2) / W, ((j : ℚ) + 1 / 2) / H)

/-- `v_simPos` from the vertex shader (lines 153-154):
`clipSpace = a_position * 2 - 1`, x stretched by the aspect ratio. -/
def simPosOf (aspect : ℚ) (t : ℚ × ℚ) : ℚ × ℚ :=
  ((2 * t.1 - 1) * aspect, 2 * t.2 - 1)

/-- `simToTexel` from `_getAdvectSource` (lines 194-196). -/
def simToTexel (aspect : ℚ) (s : ℚ × ℚ) : ℚ × ℚ :=
  ((s.1 / aspect + 1) * (1 / 2), (s.2 + 1) * (1 / 2))

/-- GLSL `mix(x, y, a) = x * (1 - a) + y * a`. -/
def mixQ (x y a : ℚ) : ℚ := x * (1 - a) + y * a

/-- The advection shader `main` (lines 198-214), one channel: back-trace
by `u_dt * u_rdx * vel`, manual bilinear interpolation of the target
field at the traced position, scaled by `u_dissipation`. -/
def advect (W H : ℕ) (vel : VField) (target : SField)
    (dt rdx aspect dissipation : ℚ) : SField := fun i j =>
  let tc := texCoordOf W H i j
  let sp := simPosOf aspect tc
  let v := sampleNearestV W H vel tc
  let traced : ℚ × ℚ := (sp.1 - dt * rdx * v.1, sp.2 - dt * rdx * v.2)
  let tx := simToTexel aspect traced
  let texelPos : ℚ × ℚ := (tx.1 * W, tx.2 * H)
  let stf : ℚ × ℚ := ((⌊texelPos.1 - 1 / 2⌋ : ℚ) + 1 / 2,
                      (⌊texelPos.2 - 1 / 2⌋ : ℚ) + 1 / 2)
  let tfrac : ℚ × ℚ := (texelPos.1 - stf.1, texelPos.2 - stf.2)
  let st : ℚ × ℚ := (stf.1 / W, stf.2 / H)
  let st2 : ℚ × ℚ := (st.1 + 1 / W, st.2 + 1 / H)
  let t11 := sampleNearest W H target st
  let t21 := sampleNearest W H target (st2.1, st.2)
  let t12 := sampleNearest W H target (st.1, st2.2)
  let t22 := sampleNearest W H target st2
  mixQ (mixQ t11 t21 tfrac.1) (mixQ t12 t22 tfrac.1) tfrac.2 * dissipation

/-- The everywhere-zero (stationary) velocity field. -/
def zeroVelocity : VField := fun _ _ => (0, 0)

/-! ## Particle update (`_getParticleUpdateSource`, lines 583-606) -/

/-- GLSL `mod(x, y) = x - y * floor(x / y)`. -/
def glslMod (x y : ℚ) : ℚ := x - y * ⌊x / y⌋

/-- One axis of `pos = mod(pos + 1.0, 2.0) - 1.0` (line 603). -/
def wrapCoord (x : ℚ) : ℚ := glslMod (x + 1) 2 - 1

/-- One texel of the particle-state texture: `(pos.xy, vel.zw)`. -/
structure ParticleData where
  pos : ℚ × ℚ
  vel : ℚ × ℚ

/-- The particle-update shader body (lines 591-605): sample the flow at
the particle's position, blend the particle velocity toward it by
`u_drag`, integrate by `u_dt * vel * u_speed`, wrap into `[-1, 1]`. -/
def updateParticle (W H : ℕ) (velField : VField) (flowScale : ℚ × ℚ)
    (drag speed dt : ℚ) (data : ParticleData) : ParticleData :=
  let texC : ℚ × ℚ := ((data.pos.1 + 1) * (1 / 2), (data.pos.2 + 1) * (1 / 2))
  let fv := sampleNearestV W H velField texC
  let flow : ℚ × ℚ := (fv.1 * flowScale.1, fv.2 * flowScale.2)
  let vel : ℚ × ℚ := (data.vel.1 + (flow.1 - data.vel.1) * drag,
                      data.vel.2 + (flow.2 - data.vel.2) * drag)
  let pos : ℚ × ℚ := (data.pos.1 + dt * vel.1 * speed,
                      data.pos.2 + dt * vel.2 * speed)
  { pos := (wrapCoord pos.1, wrapCoord pos.2), vel := vel }

/-! ## Particle buffers (`_initParticleBuffers`, lines 701-737) -/

/-- `Math.ceil(Math.sqrt count)` (line 706) in exact arithmetic:
for `count ≥ 1` this is `Nat.sqrt (count - 1) + 1`. -/
def ceilSqrt (n : ℕ) : ℕ := if n = 0 then 0 else Nat.sqrt (n - 1) + 1

/-- `this.particleDataSize = dataSize` (line 707). -/
def particleDataSize (count : ℕ) : ℕ := ceilSqrt count

/-- `this.particleCount = dataSize * dataSize` (line 708). -/
def particleCountOf (count : ℕ) : ℕ := particleDataSize count * particleDataSize count

/-- `getParticleCount()` (line 1181) returns `this.particleCount` as
computed by `_initParticleBuffers` from the requested count. -/
def getParticleCount (requested : ℕ) : ℕ := particleCountOf requested

/-- UV assigned to particle `(i, j)` of the square lattice (lines 711-717):
`((j + 0.5) / dataSize, (i + 0.5) / dataSize)`. -/
def particleUV (dataSize : ℕ) (i j : ℕ) : ℚ × ℚ :=
  (((j : ℚ) + 1 / 2) / dataSize, ((i : ℚ) + 1 / 2) / dataSize)

/-- Texel addressed by a texture coordinate under `NEAREST` filtering. -/
def texelOf (dataSize : ℕ) (c : ℚ × ℚ) : ℤ × ℤ :=
  (⌊c.1 * dataSize⌋, ⌊c.2 * dataSize⌋)

/-! ## Stroke geometry (`distToSeg` in `_getForceSource` / `_getDyeSource`,
lines 349-359 and 411-421) -/

/-- GLSL `dot`. -/
def dotQ (a b : ℚ × ℚ) : ℚ := a.1 * b.1 + a.2 * b.2

/-- Squared GLSL `length`. -/
def lengthSq (a : ℚ × ℚ) : ℚ := dotQ a a

/-- The `out float fp` parameter of `distToSeg`: `some` models a value
assigned by `fp = proj / lx;`, `none` models the early return
`if (lx <= 0.0001) return length(d);` which leaves `fp` unassigned (and
therefore undefined in the caller).  The guard and the assigned value
are squared into exact arithmetic: `lx ≤ 0.0001 ↔ lx² ≤ 1/10^8` for the
nonnegative `lx = length(b - a)`, and
`fp = proj / lx = dot(d, x / lx) / lx = dot(d, x) / lx²`. -/
def distToSegFp (a b p : ℚ × ℚ) : Option ℚ :=
  let d : ℚ × ℚ := (p.1 - a.1, p.2 - a.2)
  let x : ℚ × ℚ := (b.1 - a.1, b.2 - a.2)
  if lengthSq x ≤ 1 / 100000000 then none
  else some (dotQ d x / lengthSq x)

/-- GLSL `clamp(x, lo, hi) = min(max(x, lo), hi)`. -/
def clampQ (x lo hi : ℚ) : ℚ := min (max x lo) hi

/-- `tapering = 1.0 - clamp(fp, 0.0, 1.0) * 0.6` (lines 371 and 487),
defined only when the out parameter `fp` was assigned. -/
def taperingOf (fp : Option ℚ) : Option ℚ :=
  fp.map (fun f => 1 - clampQ f 0 1 * (6 / 10))

/-! ## Configuration surface (constructor lines 53-63, `setQuality`,
`updateSettings`, `_initFramebuffers`) -/

/-- The recognized constructor options (`options`), each optional; also
serves as the partial-settings patch accepted by `updateSettings`. -/
structure EngineOptions where
  quality : Option ℤ := none
  solverIterations : Option ℕ := none
  dyeIntensity : Option ℚ := none
  forceRadius : Option ℚ := none
  colorMode : Option ℤ := none
  particleSpeed : Option ℚ := none
  dyeDecay : Option ℚ := none
  velocityDissipation : Option ℚ := none

/-- `this.settings` (`cellSize` is the fixed constant `cellSize` above). -/
structure Settings where
  quality : ℤ
  solverIterations : ℕ
  dyeIntensity : ℚ
  forceRadius : ℚ
  colorMode : ℤ
  particleSpeed : ℚ
  dyeDecay : ℚ
  velocityDissipation : ℚ

/-- The constructor's settings defaults (lines 53-63): each option falls
back to its default via `??`. -/
def initialSettings (o : EngineOptions) : Settings where
  quality := o.quality.getD 2
  solverIterations := o.solverIterations.getD 20
  dyeIntensity := o.dyeIntensity.getD (12 / 10)
  forceRadius := o.forceRadius.getD (18 / 1000)
  colorMode := o.colorMode.getD 0
  particleSpeed := o.particleSpeed.getD 1
  dyeDecay := o.dyeDecay.getD (98 / 100)
  velocityDissipation := o.velocityDissipation.getD (999 / 1000)

/-- One entry of `this.qualityPresets` (lines 66-72). -/
structure QualityPreset where
  particles : ℕ
  scale : ℚ
  iterations : ℕ

/-- `this.qualityPresets` (lines 66-72), levels 0 (Ultra Low) to 4 (Ultra High). -/
def qualityPresets : List QualityPreset :=
  [⟨16384, 1 / 8, 10⟩, ⟨65536, 1 / 6, 14⟩, ⟨262144, 1 / 4, 20⟩,
   ⟨524288, 1 / 3, 25⟩, ⟨1048576, 1 / 2, 32⟩]

/-- `this.qualityPresets[q]`. -/
def presetFor (q : ℤ) : QualityPreset := qualityPresets.getD q.toNat ⟨0, 0, 0⟩

/-- The settings effect of `_initFramebuffers` (line 800):
`this.settings.solverIterations = preset.iterations` — unconditionally. -/
def initFramebuffersSettings (s : Settings) : Settings :=
  { s with solverIterations := (presetFor s.quality).iterations }

/-- Settings after construction: defaults from options, then
`_initFramebuffers` (line 103). -/
def engineInitSettings (o : EngineOptions) : Settings :=
  initFramebuffersSettings (initialSettings o)

/-- `Math.max(0, Math.min(4, q))` (line 1185). -/
def clampQuality (q : ℤ) : ℤ := max 0 (min 4 q)

/-- `setQuality(q)` (lines 1184-1187): clamp the level, then
`_initFramebuffers()`; the `Bool` records that a reconstruction ran. -/
def setQuality (s : Settings) (q : ℤ) : Settings × Bool :=
  (initFramebuffersSettings { s with quality := clampQuality q }, true)

/-- `updateSettings(s)` (line 1189): `Object.assign(this.settings, s)` —
fields present in the patch are stored verbatim; nothing else runs, so
the `Bool` (reconstruction) is `false`. -/
def updateSettings (s : Settings) (patch : EngineOptions) : Settings × Bool :=
  ({ quality := patch.quality.getD s.quality
     solverIterations := patch.solverIterations.getD s.solverIterations
     dyeIntensity := patch.dyeIntensity.getD s.dyeIntensity
     forceRadius := patch.forceRadius.getD s.forceRadius
     colorMode := patch.colorMode.getD s.colorMode
     particleSpeed := patch.particleSpeed.getD s.particleSpeed
     dyeDecay := patch.dyeDecay.getD s.dyeDecay
     velocityDissipation := patch.velocityDissipation.getD s.velocityDissipation },
   false)

/-! ## Texture storage selection (`_initExtensions`, `_createRenderTarget`,
`_initFramebuffers`) -/

/-- Storage formats a render target can be allocated with
(`_createRenderTarget`, lines 768-780). -/
inductive TexFormat
  | rgba32f
  | rgbaFloat32
  | rgbaByte
deriving DecidableEq

/-- Float-texture capabilities recorded by `_initExtensions`
(lines 113-128). -/
structure GLCaps where
  isWebGL2 : Bool
  floatTexSupport : Bool

/-- High-precision (float) grid storage is available: built in on WebGL2,
via `OES_texture_float` on WebGL1. -/
def floatStorageAvailable (caps : GLCaps) : Bool :=
  caps.isWebGL2 || caps.floatTexSupport

/-- The storage format chosen by `_createRenderTarget(w, h, isFloat)`
(lines 768-780). -/
def renderTargetFormat (caps : GLCaps) (isFloat : Bool) : TexFormat :=
  if caps.isWebGL2 then
    if isFloat then .rgba32f else .rgbaByte
  else
    if isFloat && caps.floatTexSupport then .rgbaFloat32 else .rgbaByte

/-- Whether a format is floating-point backed. -/
def TexFormat.isFloatBacked : TexFormat → Bool
  | .rgbaByte => false
  | _ => true

/-- Storage of the dye double-buffer: `_initFramebuffers` allocates
`this.dyeFBO = this._createDoubleFBO(w, h, false)` (line 805). -/
def dyeFormat (caps : GLCaps) : TexFormat := renderTargetFormat caps false

/-- Storage of the velocity double-buffer: `isFloat = true` (line 802);
pressure (line 803) and divergence (line 804) use the same flag. -/
def velocityFormat (caps : GLCaps) : TexFormat := renderTargetFormat caps true

/-! ## Quality controller (`_animate`, lines 1148-1176) -/

/-- The controller state carried across FPS sampling windows:
the active level, the consecutive-low-FPS streak (`this.lowFpsCount`),
and how many Field/particle reconstructions have run. -/
structure QualityState where
  quality : ℤ
  lowFpsCount : ℕ
  reconstructions : ℕ

/-- The low-FPS threshold in `_animate` (line 1160): `currentFps < 20`. -/
def lowFpsThreshold : ℚ := 20

/-- `setQuality`'s effect on the controller state (lines 1184-1187):
clamp the level and rebuild all buffers (one reconstruction). -/
def controllerSetQuality (st : QualityState) (q : ℤ) : QualityState :=
  { st with quality := clampQuality q, reconstructions := st.reconstructions + 1 }

/-- One ≈0.5 s FPS sampling window of `_animate` (lines 1159-1169): if
auto-quality is on, the measured FPS is below threshold and the level is
above 0, the streak grows, and on reaching 5 the level drops by one and
the streak resets; otherwise the streak resets to 0. -/
def fpsWindow (autoQuality : Bool) (fps : ℚ) (st : QualityState) : QualityState :=
  if autoQuality = true ∧ fps < lowFpsThreshold ∧ 0 < st.quality then
    let c := st.lowFpsCount + 1
    if 5 ≤ c then
      { controllerSetQuality st (st.quality - 1) with lowFpsCount := 0 }
    else
      { st with lowFpsCount := c }
  else
    { st with lowFpsCount := 0 }

/-! ## A divergence-free test field -/

/-- Horizontally alternating unit velocity, `v(i, j) = ((-1)^i, 0)`:
nonzero everywhere, and its discrete divergence (with the engine's
reflect-and-flip boundary sampling) vanishes identically. -/
def altField : VField := fun i _ => (if i % 2 = 0 then (1 : ℚ) else -1, 0)

/-! ## Reflection stays inside the grid

From a grid cell, every boundary-corrected neighbour read lands on a
grid cell again. -/

theorem reflectIdx_sub_one_mem {W : ℕ} {i : ℤ} (h0 : 0 ≤ i) (h1 : i < W) :
    0 ≤ reflectIdx W (i - 1) ∧ reflectIdx W (i - 1) < W := by
  unfold reflectIdx
  split <;> [skip; split] <;> omega

theorem reflectIdx_add_one_mem {W : ℕ} {i : ℤ} (h0 : 0 ≤ i) (h1 : i < W) :
    0 ≤ reflectIdx W (i + 1) ∧ reflectIdx W (i + 1) < W := by
  unfold reflectIdx
  split <;> [skip; split] <;> omega

theorem reflectIdx_self_mem {W : ℕ} {i : ℤ} (h0 : 0 ≤ i) (h1 : i < W) :
    0 ≤ reflectIdx W i ∧ reflectIdx W i < W := by
  unfold reflectIdx
  split <;> [skip; split] <;> omega

/-! ## C6 — dye-field storage precision -/

/-- C6 counterexample: on a context where float storage is available
(WebGL2), the dye double-buffer is still allocated with normalized 8-bit
storage, because `_initFramebuffers` passes `isFloat = false` for
`dyeFBO`; so the dye field is not float-backed whenever high precision
is available. -/
theorem dye_not_float_backed_counterexample :
    floatStorageAvailable ⟨true, true⟩ = true ∧
    (dyeFormat ⟨true, true⟩).isFloatBacked = false := by
  exact ⟨rfl, rfl⟩

/-- C6 (amended): the dye field is always allocated with normalized
8-bit storage, regardless of capabilities; it is the float-flagged
targets (velocity, pressure, divergence) that are float-backed exactly
when float storage is available, with a deterministic, never-fatal
fallback to 8-bit storage when it is not. -/
theorem dye_always_byte_velocity_float_when_available :
    ∀ w f : Bool, dyeFormat ⟨w, f⟩ = TexFormat.rgbaByte ∧
      (velocityFormat ⟨w, f⟩).isFloatBacked = floatStorageAvailable ⟨w, f⟩ := by
  decide

/-! ## C7 — explicit `solverIterations` versus preset -/

/-- C7 counterexample: constructing with an explicit
`solverIterations = 99` at quality 2 yields `solverIterations = 20`
(the preset's count), because `_initFramebuffers` overwrites the setting
unconditionally; the explicitly set count is not used. -/
theorem solverIterations_override_counterexample :
    (engineInitSettings { quality := some 2, solverIterations := some 99 }).solverIterations
      = 20 ∧ (20 : ℕ) ≠ 99 := by
  exact ⟨rfl, by decide⟩

/-- C7 (amended): the active preset's iteration count always overrides
`solverIterations` when the framebuffers are (re)initialized — at
construction and on every reconstruction — regardless of whether the
option was explicitly set, and independently of the explicit value. -/
theorem preset_overrides_solverIterations (o : EngineOptions) (k : ℕ) :
    (engineInitSettings { o with solverIterations := some k }).solverIterations
      = (presetFor (o.quality.getD 2)).iterations := rfl

/-! ## C8 — quality clamping on the public surface -/

/-- C8 counterexample: a quality level supplied through
`updateSettings` is stored verbatim — `updateSettings({quality: 7})`
stores 7, not the clamped 4, and triggers no reconstruction. -/
theorem updateSettings_no_clamp_counterexample :
    (updateSettings (engineInitSettings {}) { quality := some 7 }).1.quality = 7 ∧
    clampQuality 7 = 4 ∧ (7 : ℤ) ≠ 4 ∧
    (updateSettings (engineInitSettings {}) { quality := some 7 }).2 = false := by
  refine ⟨rfl, by decide, by decide, rfl⟩

/-- C8 (amended): `setQuality(q)` stores exactly `max(0, min(4, q))` and
immediately reconstructs at the resulting preset (in particular the
solver iteration count becomes the clamped level's preset count), but a
quality value supplied via `updateSettings` is stored verbatim, without
clamping and without reconstruction. -/
theorem setQuality_clamps_updateSettings_does_not (s : Settings) (q : ℤ) :
    (setQuality s q).1.quality = max 0 (min 4 q) ∧
    (setQuality s q).2 = true ∧
    (setQuality s q).1.solverIterations = (presetFor (clampQuality q)).iterations ∧
    (updateSettings s { quality := some q }).1.quality = q ∧
    (updateSettings s { quality := some q }).2 = false := by
  exact ⟨rfl, rfl, rfl, rfl, rfl⟩

/-! ## C9 — particle count is the least square at least the request -/

theorem floor_natCast_add_half (j : ℕ) : ⌊((j : ℚ) + 1 / 2)⌋ = (j : ℤ) := by
  have h : ((j : ℚ) + 1 / 2) = ((j : ℤ) : ℚ) + 1 / 2 := by push_cast; ring
  rw [h, Int.floor_int_add]
  norm_num

/-- C9: for every requested particle count `n ≥ 1`, the actual particle
count (and `getParticleCount()`) is `side * side` for
`side = ceil(sqrt n)`, which is the least integer whose square reaches
`n`; and each lattice particle `(i, j)` is assigned a UV that addresses
texel `(j, i)` under `NEAREST` filtering — a one-to-one particle-to-texel
mapping on the square grid. -/
theorem particle_count_is_min_square (n : ℕ) (hn : 1 ≤ n) :
    getParticleCount n = particleDataSize n * particleDataSize n ∧
    n ≤ particleDataSize n * particleDataSize n ∧
    (∀ s : ℕ, n ≤ s * s → particleDataSize n ≤ s) ∧
    (∀ i j : ℕ, i < particleDataSize n → j < particleDataSize n →
      texelOf (particleDataSize n) (particleUV (particleDataSize n) i j)
        = ((j : ℤ), (i : ℤ))) := by
  have hne : n ≠ 0 := by omega
  refine ⟨rfl, ?_, ?_, ?_⟩
  · unfold particleDataSize ceilSqrt
    rw [if_neg hne]
    have h := Nat.lt_succ_sqrt (n - 1)
    simp only [Nat.succ_eq_add_one] at h
    omega
  · intro s hs
    unfold particleDataSize ceilSqrt
    rw [if_neg hne]
    have h : Nat.sqrt (n - 1) < s := Nat.sqrt_lt.2 (by omega)
    omega
  · intro i j hi hj
    have hside : (particleDataSize n : ℚ) ≠ 0 := by
      have : 0 < particleDataSize n := by omega
      exact_mod_cast this.ne'
    unfold texelOf particleUV
    rw [Prod.mk.injEq]
    constructor
    · rw [div_mul_cancel₀ _ hside]
      exact floor_natCast_add_half j
    · rw [div_mul_cancel₀ _ hside]
      exact floor_natCast_add_half i

/-- Witness for C9 at the concrete request `n = 5`: the side is 3 (the
least natural with `s * s ≥ 5`) and the particle count is 9. -/
theorem particle_count_is_min_square_witness :
    1 ≤ 5 ∧ getParticleCount 5 = particleDataSize 5 * particleDataSize 5 ∧
    5 ≤ particleDataSize 5 * particleDataSize 5 :=
  ⟨by norm_num, (particle_count_is_min_square 5 (by norm_num)).1,
   (particle_count_is_min_square 5 (by norm_num)).2.1⟩

/-! ## C4 — particle wrap into the toroidal domain -/

theorem wrapCoord_mem (x : ℚ) : -1 ≤ wrapCoord x ∧ wrapCoord x ≤ 1 := by
  unfold wrapCoord glslMod
  have hfr : (x + 1) - 2 * ⌊(x + 1) / 2⌋ = 2 * Int.fract ((x + 1) / 2) := by
    unfold Int.fract
    ring
  rw [hfr]
  have h0 := Int.fract_nonneg ((x + 1) / 2)
  have h1 := Int.fract_lt_one ((x + 1) / 2)
  constructor <;> linarith

theorem wrapCoord_reenter {u : ℚ} (h1 : 1 < u) (h3 : u < 3) :
    wrapCoord u = u - 2 := by
  unfold wrapCoord glslMod
  have hf : ⌊(u + 1) / 2⌋ = 1 := by
    rw [Int.floor_eq_iff]
    constructor <;> push_cast <;> linarith
  rw [hf]
  push_cast
  ring

/-- C4: after one particle update the wrapped position lies in `[-1, 1]`
on both axes (never outside range), the stored position is exactly the
wrap of the integrated position `pos + dt * vel * speed` (with the
already-blended velocity), and a coordinate integrated past `+1` (into
`(1, 3)`) re-enters at its unwrapped value minus 2 — the toroidal law
`pos = mod(pos + 1, 2) - 1`. -/
theorem particle_update_wraps (W H : ℕ) (velField : VField) (flowScale : ℚ × ℚ)
    (drag speed dt : ℚ) (data : ParticleData) :
    let upd := updateParticle W H velField flowScale drag speed dt data
    ((-1 ≤ upd.pos.1 ∧ upd.pos.1 ≤ 1) ∧ (-1 ≤ upd.pos.2 ∧ upd.pos.2 ≤ 1)) ∧
    (upd.pos.1 = wrapCoord (data.pos.1 + dt * upd.vel.1 * speed) ∧
     upd.pos.2 = wrapCoord (data.pos.2 + dt * upd.vel.2 * speed)) ∧
    (∀ u : ℚ, 1 < u → u < 3 → wrapCoord u = u - 2) := by
  refine ⟨⟨wrapCoord_mem _, wrapCoord_mem _⟩, ⟨rfl, rfl⟩, ?_⟩
  intro u h1 h3
  exact wrapCoord_reenter h1 h3

/-- Witness for C4: a particle at `x = 0.999` whose (drag-free) velocity
carries it to the unwrapped `x = 1.499 ∈ (1, 3)` re-enters at
`1.499 - 2 = -0.501`, inside `[-1, 1]`. -/
theorem particle_update_wraps_witness :
    (1 : ℚ) < 1499 / 1000 ∧ (1499 / 1000 : ℚ) < 3 ∧
    wrapCoord (1499 / 1000) = 1499 / 1000 - 2 :=
  ⟨by norm_num, by norm_num,
   (particle_update_wraps 1 1 zeroVelocity (1, 1) 0 1 1
      ⟨(999 / 1000, 0), (1 / 2, 0)⟩).2.2 (1499 / 1000) (by norm_num) (by norm_num)⟩

/-! ## C5 — the quality controller's downgrade discipline -/

theorem fpsWindow_low_step {st : QualityState} {f : ℚ} (hf : f < 20)
    (hq : 0 < st.quality) (hk : st.lowFpsCount + 1 < 5) :
    fpsWindow true f st = { st with lowFpsCount := st.lowFpsCount + 1 } := by
  unfold fpsWindow
  rw [if_pos ⟨rfl, by simpa [lowFpsThreshold] using hf, hq⟩, if_neg (by omega)]

theorem fpsWindow_low_trigger {st : QualityState} {f : ℚ} (hf : f < 20)
    (hq : 0 < st.quality) (hk : 5 ≤ st.lowFpsCount + 1) :
    fpsWindow true f st =
      { quality := clampQuality (st.quality - 1), lowFpsCount := 0,
        reconstructions := st.reconstructions + 1 } := by
  unfold fpsWindow
  rw [if_pos ⟨rfl, by simpa [lowFpsThreshold] using hf, hq⟩, if_pos hk]
  rfl

theorem fpsWindow_quality_le (f : ℚ) (s : QualityState) :
    (fpsWindow true f s).quality ≤ s.quality := by
  by_cases hcond : true = true ∧ f < lowFpsThreshold ∧ 0 < s.quality
  · by_cases htr : 5 ≤ s.lowFpsCount + 1
    · rw [fpsWindow_low_trigger hcond.2.1 hcond.2.2 htr]
      simp only [clampQuality]
      have := hcond.2.2
      omega
    · rw [fpsWindow_low_step hcond.2.1 hcond.2.2 (by omega)]
  · unfold fpsWindow
    rw [if_neg hcond]

theorem fpsWindow_reset (f : ℚ) (s : QualityState) (hf : lowFpsThreshold ≤ f) :
    (fpsWindow true f s).lowFpsCount = 0 := by
  unfold fpsWindow
  rw [if_neg]
  rintro ⟨-, hlt, -⟩
  exact absurd hlt (not_lt.2 hf)

/-- C5 counterexample: with auto-quality enabled at level 0, five
consecutive windows below the threshold leave the level at 0 (no
decrement by 1) and cause no reconstruction — the streak is not even
counted, because `_animate` guards on `this.settings.quality > 0`. -/
theorem quality_floor_counterexample :
    let st0 : QualityState := ⟨0, 0, 0⟩
    let st5 := fpsWindow true 10 (fpsWindow true 10 (fpsWindow true 10
                 (fpsWindow true 10 (fpsWindow true 10 st0))))
    st5.quality = 0 ∧ st5.quality ≠ st0.quality - 1 ∧ st5.reconstructions = 0 := by
  norm_num [fpsWindow, lowFpsThreshold]

/-- C5 (amended): with auto-quality enabled and the level currently in
`(0, 4]` (a downgrade is possible), the level never increases
automatically; after exactly 5 consecutive windows below the threshold
it decreases by exactly 1, the streak resets to 0 and reconstruction
runs exactly once; and any single window at or above the threshold
resets the streak to 0.  (At level 0 low windows change nothing at all.) -/
theorem quality_downgrade_amended (st : QualityState) (f1 f2 f3 f4 f5 : ℚ)
    (hc : st.lowFpsCount = 0) (hq0 : 0 < st.quality) (hq4 : st.quality ≤ 4)
    (h1 : f1 < 20) (h2 : f2 < 20) (h3 : f3 < 20) (h4 : f4 < 20) (h5 : f5 < 20) :
    let st5 := fpsWindow true f5 (fpsWindow true f4 (fpsWindow true f3
                 (fpsWindow true f2 (fpsWindow true f1 st))))
    (st5.quality = st.quality - 1 ∧ st5.lowFpsCount = 0 ∧
     st5.reconstructions = st.reconstructions + 1) ∧
    (∀ f : ℚ, ∀ s : QualityState, (fpsWindow true f s).quality ≤ s.quality) ∧
    (∀ f : ℚ, ∀ s : QualityState, lowFpsThreshold ≤ f →
      (fpsWindow true f s).lowFpsCount = 0) := by
  have e1 : fpsWindow true f1 st = { st with lowFpsCount := 1 } := by
    rw [fpsWindow_low_step h1 hq0 (by omega), hc]
  have e2 : fpsWindow true f2 { st with lowFpsCount := 1 }
      = { st with lowFpsCount := 2 } :=
    fpsWindow_low_step h2 hq0 (by norm_num)
  have e3 : fpsWindow true f3 { st with lowFpsCount := 2 }
      = { st with lowFpsCount := 3 } :=
    fpsWindow_low_step h3 hq0 (by norm_num)
  have e4 : fpsWindow true f4 { st with lowFpsCount := 3 }
      = { st with lowFpsCount := 4 } :=
    fpsWindow_low_step h4 hq0 (by norm_num)
  have e5 : fpsWindow true f5 { st with lowFpsCount := 4 }
      = { quality := clampQuality (st.quality - 1), lowFpsCount := 0,
          reconstructions := st.reconstructions + 1 } :=
    fpsWindow_low_trigger h5 hq0 (by norm_num)
  have hclamp : clampQuality (st.quality - 1) = st.quality - 1 := by
    unfold clampQuality
    omega
  refine ⟨?_, fpsWindow_quality_le, fun f s hf => fpsWindow_reset f s hf⟩
  rw [e1, e2, e3, e4, e5, hclamp]
  exact ⟨rfl, rfl, rfl⟩

/-- Witness for C5 at level 2 with five windows of 10 FPS: the level
drops to 1 with one reconstruction. -/
theorem quality_downgrade_amended_witness :
    (fpsWindow true 10 (fpsWindow true 10 (fpsWindow true 10 (fpsWindow true 10
       (fpsWindow true 10 (⟨2, 0, 0⟩ : QualityState)))))).quality = 1 ∧
    (fpsWindow true 10 (fpsWindow true 10 (fpsWindow true 10 (fpsWindow true 10
       (fpsWindow true 10 (⟨2, 0, 0⟩ : QualityState)))))).reconstructions = 1 := by
  have h := quality_downgrade_amended ⟨2, 0, 0⟩ 10 10 10 10 10 rfl (by norm_num)
    (by norm_num) (by norm_num) (by norm_num) (by norm_num) (by norm_num) (by norm_num)
  exact ⟨h.1.1, h.1.2.2⟩

/-! ## C2 — the pressure solve is exactly N warm-started Jacobi iterations -/

theorem PressureBuffers.read_writeAndFlip (s : PressureBuffers) (f : SField) :
    (s.writeAndFlip f).read = f := by
  obtain ⟨a, b, idx⟩ := s
  cases idx <;> rfl

theorem specJacobiIteration_eq_pressureIterate (W H : ℕ) (d p : SField) :
    specJacobiIteration W H d p = pressureIterate W H d p := rfl

/-- C2: `_solvePressure` performs exactly `N` full-grid Jacobi
iterations with no early exit, ping-ponging inside the pressure
DoubleBuffer so that each iteration reads the field written by the
previous one: after the solve, the current read buffer is the `N`-fold
iterate of the spec's per-cell update
`p' = (pL + pR + pB + pT + alpha * div) * 0.25` (`alpha = -cellSize²`,
edge-reflected samples with no sign flip) applied to the buffer content
present before the solve — the previous frame's pressure (warm start),
never a zeroed field; and that spec update coincides per-cell with the
pressure shader of the source. -/
theorem solvePressure_runs_N_jacobi_iterations (W H : ℕ) (d : SField) (N : ℕ)
    (s : PressureBuffers) :
    (solvePressure W H d N s).read = (specJacobiIteration W H d)^[N] s.read ∧
    (∀ p : SField, specJacobiIteration W H d p = pressureIterate W H d p) := by
  refine ⟨?_, fun p => rfl⟩
  induction N generalizing s with
  | zero => rfl
  | succ n ih =>
    show (solvePressure W H d n (s.writeAndFlip (pressureIterate W H d s.read))).read = _
    rw [ih, PressureBuffers.read_writeAndFlip,
      ← specJacobiIteration_eq_pressureIterate, ← Function.iterate_succ_apply]

/-! ## C3 — advection against a stationary field is exact decay -/

theorem simToTexel_simPos {aspect : ℚ} (ha : aspect ≠ 0) (t : ℚ × ℚ) :
    simToTexel aspect (simPosOf aspect t) = t := by
  unfold simToTexel simPosOf
  have h1 : (2 * t.1 - 1) * aspect / aspect = 2 * t.1 - 1 :=
    mul_div_cancel_right₀ _ ha
  rw [Prod.mk.injEq]
  constructor
  · rw [h1]; ring
  · ring

theorem floor_intCast_add_half (i : ℤ) : ⌊((i : ℚ) + 1 / 2)⌋ = i := by
  rw [Int.floor_int_add]
  norm_num

/-- C3: with the everywhere-zero velocity field, every grid cell's
advected value is exactly the cell's stored value times the dissipation
factor `d ∈ (0, 1]`: the back-trace lands on the cell itself and the
manual bilinear interpolation reproduces the stored texel exactly. -/
theorem advect_zero_velocity_is_decay (W H : ℕ) (target : SField)
    (dt rdx aspect dis : ℚ) (i j : ℤ)
    (ha : aspect ≠ 0) (hd0 : 0 < dis) (hd1 : dis ≤ 1)
    (hi0 : 0 ≤ i) (hiW : i < W) (hj0 : 0 ≤ j) (hjH : j < H) :
    advect W H zeroVelocity target dt rdx aspect dis i j = target i j * dis := by
  have hWq : (W : ℚ) ≠ 0 := by
    have : (0 : ℤ) < W := lt_of_le_of_lt hi0 hiW
    exact_mod_cast (by omega : (W : ℤ) ≠ 0)
  have hHq : (H : ℚ) ≠ 0 := by
    have : (0 : ℤ) < H := lt_of_le_of_lt hj0 hjH
    exact_mod_cast (by omega : (H : ℤ) ≠ 0)
  unfold advect
  simp only [sampleNearestV, zeroVelocity, mul_zero, sub_zero, Prod.mk.eta,
    simToTexel_simPos ha]
  unfold texCoordOf
  rw [div_mul_cancel₀ _ hWq, div_mul_cancel₀ _ hHq]
  have hfi : ⌊(i : ℚ) + 1 / 2 - 1 / 2⌋ = i := by
    rw [add_sub_cancel_right, Int.floor_intCast]
  have hfj : ⌊(j : ℚ) + 1 / 2 - 1 / 2⌋ = j := by
    rw [add_sub_cancel_right, Int.floor_intCast]
  rw [hfi, hfj]
  unfold sampleNearest mixQ
  rw [div_mul_cancel₀ _ hWq, div_mul_cancel₀ _ hHq,
    floor_intCast_add_half i, floor_intCast_add_half j]
  have hci : max 0 (min ((W : ℤ) - 1) i) = i := by omega
  have hcj : max 0 (min ((H : ℤ) - 1) j) = j := by omega
  rw [hci, hcj]
  ring_nf

/-- Witness for C3 on a 2×2 grid at cell `(1, 1)` with `d = 1/2`. -/
theorem advect_zero_velocity_is_decay_witness :
    ((1 : ℚ) ≠ 0) ∧ (0 < (1 / 2 : ℚ)) ∧ ((1 / 2 : ℚ) ≤ 1) ∧
    advect 2 2 zeroVelocity (fun _ _ => 7) 3 (1 / 32) 1 (1 / 2) 1 1 = 7 * (1 / 2) :=
  ⟨by norm_num, by norm_num, by norm_num,
   advect_zero_velocity_is_decay 2 2 (fun _ _ => 7) 3 (1 / 32) 1 (1 / 2) 1 1
     (by norm_num) (by norm_num) (by norm_num) (by norm_num) (by norm_num)
     (by norm_num) (by norm_num)⟩

/-! ## C10 — the `distToSeg` out parameter on a degenerate stroke -/

/-- C10: on a degenerate stroke (previous and current pointer positions
coincide, e.g. a stationary press at the origin with the fragment at
sim position `(1/2, 0)`), `distToSeg` takes the `lx <= 0.0001` early
return without assigning the out parameter `fp`, so the caller's
tapering factor — and with it the force- and dye-injection weights — is
computed from an undefined value. -/
theorem distToSeg_fp_unassigned_on_stationary_press :
    distToSegFp (0, 0) (0, 0) (1 / 2, 0) = none ∧
    taperingOf (distToSegFp (0, 0) (0, 0) (1 / 2, 0)) = none := by
  constructor <;> norm_num [distToSegFp, taperingOf, lengthSq, dotQ]

/-! ## C1 — divergence after the projection sequence

The horizontally alternating field `altField` is fixed by the
flip-reflected sampling, so its discrete divergence vanishes at every
cell; the projection sequence (with the zero warm-start pressure of the
first frame) then returns it unchanged, and the magnitude of its
divergence is unchanged rather than reduced. -/

theorem sampleVel_altField (W H : ℕ) (i j : ℤ) :
    sampleVel W H altField i j = altField i j := by
  by_cases h1 : i < 0
  · rcases Int.emod_two_eq i with h | h
    · have hp : (i + 1) % 2 = 1 := by omega
      simp [sampleVel, altField, reflectIdx, h1, h, hp]
    · have hp : (i + 1) % 2 = 0 := by omega
      simp [sampleVel, altField, reflectIdx, h1, h, hp]
  · by_cases h2 : (W : ℤ) ≤ i
    · rcases Int.emod_two_eq i with h | h
      · have hp : (i - 1) % 2 = 1 := by omega
        simp [sampleVel, altField, reflectIdx, h1, h2, h, hp]
      · have hp : (i - 1) % 2 = 0 := by omega
        simp [sampleVel, altField, reflectIdx, h1, h2, h, hp]
    · simp [sampleVel, altField, reflectIdx, h1, h2]

theorem divergence_altField (W H : ℕ) (i j : ℤ) :
    divergence W H altField i j = 0 := by
  simp only [divergence, sampleVel_altField]
  have h1 : (altField (i + 1) j).1 - (altField (i - 1) j).1 = 0 := by
    unfold altField
    rcases Int.emod_two_eq i with h | h
    · rw [if_neg (by omega), if_neg (by omega)]
      ring
    · rw [if_pos (by omega), if_pos (by omega)]
      ring
  have h2 : (altField i (j + 1)).2 - (altField i (j - 1)).2 = 0 := by
    simp [altField]
  rw [h1, h2]
  ring

theorem pressureIterate_apply (W H : ℕ) (d p : SField) (i j : ℤ) :
    pressureIterate W H d p i j =
      (sampleP W H p (i - 1) j + sampleP W H p (i + 1) j +
       sampleP W H p i (j - 1) + sampleP W H p i (j + 1) +
       jacobiAlpha * d i j) * (1 / 4) := rfl

theorem iterate_pressure_zero_on_grid (W H : ℕ) (d : SField)
    (hd : ∀ i j : ℤ, 0 ≤ i → i < W → 0 ≤ j → j < H → d i j = 0) (N : ℕ) :
    ∀ i j : ℤ, 0 ≤ i → i < W → 0 ≤ j → j < H →
      ((pressureIterate W H d)^[N] zeroField) i j = 0 := by
  induction N with
  | zero => intro i j _ _ _ _; rfl
  | succ n ih =>
    intro i j hi0 hiW hj0 hjH
    rw [Function.iterate_succ_apply', pressureIterate_apply]
    unfold sampleP
    obtain ⟨la, lb⟩ := reflectIdx_sub_one_mem hi0 hiW
    obtain ⟨ra, rb⟩ := reflectIdx_add_one_mem hi0 hiW
    obtain ⟨ba, bb⟩ := reflectIdx_sub_one_mem hj0 hjH
    obtain ⟨ta, tb⟩ := reflectIdx_add_one_mem hj0 hjH
    obtain ⟨ia, ib⟩ := reflectIdx_self_mem hi0 hiW
    obtain ⟨ja, jb⟩ := reflectIdx_self_mem hj0 hjH
    rw [ih _ _ la lb ja jb, ih _ _ ra rb ja jb, ih _ _ ia ib ba bb,
      ih _ _ ia ib ta tb, hd i j hi0 hiW hj0 hjH]
    ring

theorem subtractGradient_id_on_grid (W H : ℕ) (p : SField) (v : VField)
    (hp : ∀ i j : ℤ, 0 ≤ i → i < W → 0 ≤ j → j < H → p i j = 0) :
    ∀ i j : ℤ, 0 ≤ i → i < W → 0 ≤ j → j < H →
      subtractGradient W H p v i j = v i j := by
  intro i j hi0 hiW hj0 hjH
  unfold subtractGradient sampleP
  obtain ⟨la, lb⟩ := reflectIdx_sub_one_mem hi0 hiW
  obtain ⟨ra, rb⟩ := reflectIdx_add_one_mem hi0 hiW
  obtain ⟨ba, bb⟩ := reflectIdx_sub_one_mem hj0 hjH
  obtain ⟨ta, tb⟩ := reflectIdx_add_one_mem hj0 hjH
  obtain ⟨ia, ib⟩ := reflectIdx_self_mem hi0 hiW
  obtain ⟨ja, jb⟩ := reflectIdx_self_mem hj0 hjH
  rw [hp _ _ la lb ja jb, hp _ _ ra rb ja jb, hp _ _ ia ib ba bb,
    hp _ _ ia ib ta tb]
  simp

theorem projectVelocity_divfree_fixed (W H N : ℕ) (v : VField)
    (hdiv : ∀ i j : ℤ, 0 ≤ i → i < W → 0 ≤ j → j < H →
      divergence W H v i j = 0) :
    ∀ i j : ℤ, 0 ≤ i → i < W → 0 ≤ j → j < H →
      projectVelocity W H v zeroField N i j = v i j := by
  unfold projectVelocity
  exact subtractGradient_id_on_grid W H _ v
    (iterate_pressure_zero_on_grid W H _ hdiv N)

theorem divergence_congr_on_grid (W H : ℕ) {u v : VField}
    (h : ∀ i j : ℤ, 0 ≤ i → i < W → 0 ≤ j → j < H → u i j = v i j) :
    ∀ i j : ℤ, 0 ≤ i → i < W → 0 ≤ j → j < H →
      divergence W H u i j = divergence W H v i j := by
  intro i j hi0 hiW hj0 hjH
  unfold divergence sampleVel
  obtain ⟨la, lb⟩ := reflectIdx_sub_one_mem hi0 hiW
  obtain ⟨ra, rb⟩ := reflectIdx_add_one_mem hi0 hiW
  obtain ⟨ba, bb⟩ := reflectIdx_sub_one_mem hj0 hjH
  obtain ⟨ta, tb⟩ := reflectIdx_add_one_mem hj0 hjH
  obtain ⟨ia, ib⟩ := reflectIdx_self_mem hi0 hiW
  obtain ⟨ja, jb⟩ := reflectIdx_self_mem hj0 hjH
  rw [h _ _ la lb ja jb, h _ _ ra rb ja jb, h _ _ ia ib ba bb,
    h _ _ ia ib ta tb]

theorem gridMaxAbs_congr (W H : ℕ) {f g : SField}
    (h : ∀ i j : ℤ, 0 ≤ i → i < W → 0 ≤ j → j < H → f i j = g i j) :
    gridMaxAbs W H f = gridMaxAbs W H g := by
  unfold gridMaxAbs
  apply Finset.fold_congr
  intro c hc
  rw [Finset.mem_product, Finset.mem_range, Finset.mem_range] at hc
  rw [h _ _ (Int.natCast_nonneg _) (by exact_mod_cast hc.1)
    (Int.natCast_nonneg _) (by exact_mod_cast hc.2)]

/-- C1 counterexample: on the engine's minimal 32×32 grid, the
horizontally alternating field `((-1)^i, 0)` is nonzero, yet with
`solverIterations = 1` the frame's projection sequence (with the first
frame's zero pressure seed) does not make the magnitude of its discrete
divergence smaller — the field is divergence-free, passes through the
projection unchanged, and the divergence magnitude stays exactly 0. -/
theorem divergence_reduction_counterexample :
    altField 0 0 ≠ (0, 0) ∧ 1 ≤ 1 ∧
    ¬ (gridMaxAbs 32 32 (divergence 32 32
         (projectVelocity 32 32 altField zeroField 1)) <
       gridMaxAbs 32 32 (divergence 32 32 altField)) := by
  refine ⟨?_, le_refl 1, ?_⟩
  · simp [altField]
  · rw [gridMaxAbs_congr 32 32 (divergence_congr_on_grid 32 32
      (projectVelocity_divfree_fixed 32 32 1 altField
        (fun i j _ _ _ _ => divergence_altField 32 32 i j)))]
    exact lt_irrefl _

/-- C1 (amended): the projection sequence does not reduce the divergence
magnitude of every nonzero field: a velocity field whose discrete
divergence already vanishes at every grid cell is returned unchanged at
every grid cell (for every iteration count, with the zero warm-start
pressure), so the magnitude of its recomputed divergence is exactly the
magnitude it had before projection — not smaller. -/
theorem projection_identity_on_divfree (W H N : ℕ) (v : VField)
    (hdiv : ∀ i j : ℤ, 0 ≤ i → i < W → 0 ≤ j → j < H →
      divergence W H v i j = 0) :
    (∀ i j : ℤ, 0 ≤ i → i < W → 0 ≤ j → j < H →
       projectVelocity W H v zeroField N i j = v i j) ∧
    gridMaxAbs W H (divergence W H (projectVelocity W H v zeroField N)) =
      gridMaxAbs W H (divergence W H v) := by
  refine ⟨projectVelocity_divfree_fixed W H N v hdiv, ?_⟩
  exact gridMaxAbs_congr W H (divergence_congr_on_grid W H
    (projectVelocity_divfree_fixed W H N v hdiv))

/-- Witness for C1's amended statement: the alternating field on the
32×32 grid is fixed by a 5-iteration projection at cell `(3, 4)`. -/
theorem projection_identity_on_divfree_witness :
    projectVelocity 32 32 altField zeroField 5 3 4 = altField 3 4 :=
  (projection_identity_on_divfree 32 32 5 altField
     (fun i j _ _ _ _ => divergence_altField 32 32 i j)).1 3 4
    (by norm_num) (by norm_num) (by norm_num) (by norm_num)

end FluidEngine
